import Mathlib

/-!
# Verification of the Naver keyword-monitoring script

Shallow embedding of `src/attached_assets/app_final_1769505626408.py`:
the volume-rescaling core (multiplier, rounded absolute series, MoM/YoY
growth), the ad-API volume fetcher (`get_total_volume`: keyword matching,
censored-count handling, error paths) and the request signer
(HMAC-SHA256 over `timestamp.method.path`, base64-encoded).

Numbers that the script handles as Python/pandas floats are modelled as
exact rationals (`ℚ`); pandas `Series.round(0)` is modelled by
round-half-to-even, which is the IEEE-754 rounding `numpy.round` applies.
The script's Korean DataFrame column names 날짜 / 비율 / 검색량 are
rendered here as `date` / `ratio` / `search_volume` (Lean identifiers
cannot carry Hangul).
-/

namespace NaverApp

/-- Round-half-to-even on `ℚ`: the rounding performed by pandas
`Series.round(0)` (numpy banker's rounding) on the exactly representable
values we model.  Ties (fractional part exactly 1/2) go to the even
neighbour. -/
def roundHalfEven (q : ℚ) : ℤ :=
  let f : ℤ := ⌊q⌋
  let frac : ℚ := q - f
  if frac < 1/2 then f
  else if 1/2 < frac then f + 1
  else if f % 2 = 0 then f else f + 1

/-- One row of the trend DataFrame after
`df.columns = ['날짜', '비율']` (line 177): a period label (날짜) and a
relative ratio (비율). -/
structure Row where
  date : String
  ratio : ℚ
deriving Repr, DecidableEq

/-- `last_ratio = df.iloc[-1]['비율']` (line 179); 0 as a junk default for
the empty frame (on which the script would raise before reaching here). -/
def last_ratio (df : List Row) : ℚ :=
  ((df.getLast?).map Row.ratio).getD 0

/-- `multiplier = current_total_vol / last_ratio if last_ratio > 0 else 0`
(line 180). -/
def multiplier (current_total_vol : ℤ) (lr : ℚ) : ℚ :=
  if lr > 0 then (current_total_vol : ℚ) / lr else 0

/-- `df['검색량'] = (df['비율'] * multiplier).round(0).astype(int)`
(line 182): the derived absolute-volume column. -/
def search_volume (current_total_vol : ℤ) (df : List Row) : List ℤ :=
  let m := multiplier current_total_vol (last_ratio df)
  df.map (fun p => roundHalfEven (p.ratio * m))

/-- Negative-position indexing `df.iloc[-i]` on the 검색량 column (used at
lines 190, 191, 196, 197 with `i` = 1, 2, 13); only ever evaluated under a
length guard in the script, junk default 0 otherwise. -/
def iloc (vols : List ℤ) (i : ℕ) : ℤ :=
  vols.getD (vols.length - i) 0

/-- Lines 186–192: `mom_growth = 0`, then overwritten with
`((curr - prev) / prev) * 100` when `len(df) >= 2` and `prev > 0`. -/
def mom_growth (vols : List ℤ) : ℚ :=
  if 2 ≤ vols.length then
    let curr := iloc vols 1
    let prev := iloc vols 2
    if 0 < prev then (((curr : ℚ) - prev) / prev) * 100 else 0
  else 0

/-- Lines 194–200: `has_yoy = False`, `yoy_growth = 0`, then when
`len(df) >= 13` and `df.iloc[-13]['검색량'] > 0` both are overwritten.
First component is `yoy_growth`, second is `has_yoy`. -/
def yoy_metrics (vols : List ℤ) : ℚ × Bool :=
  if 13 ≤ vols.length then
    let curr := iloc vols 1
    let prev_yr := iloc vols 13
    if 0 < prev_yr then ((((curr : ℚ) - prev_yr) / prev_yr) * 100, true)
    else (0, false)
  else (0, false)

example : search_volume 10000 [⟨"2024-01", 50⟩, ⟨"2024-02", 100⟩] = [5000, 10000] := by
  with_unfolding_all decide
example : mom_growth [5000, 10000] = 100 := by with_unfolding_all decide
example : roundHalfEven (5/2) = 2 := by with_unfolding_all decide
example : roundHalfEven (3/2) = 2 := by with_unfolding_all decide
example : yoy_metrics [5,0,0,0,0,0,0,0,0,0,0,0,10] = (100, true) := by
  with_unfolding_all decide

/-- Rounding an exact integer returns it unchanged. -/
theorem roundHalfEven_intCast (k : ℤ) : roundHalfEven (k : ℚ) = k := by
  simp only [roundHalfEven, Int.floor_intCast, sub_self]
  norm_num

/-- Rounding a non-negative rational yields a non-negative integer. -/
theorem roundHalfEven_nonneg {q : ℚ} (hq : 0 ≤ q) : 0 ≤ roundHalfEven q := by
  have hf : (0 : ℤ) ≤ ⌊q⌋ := Int.floor_nonneg.mpr hq
  simp only [roundHalfEven]
  split_ifs <;> omega

/-- At an exact tie `k + 1/2` the rounding picks the even neighbour. -/
theorem roundHalfEven_tie (k : ℤ) :
    roundHalfEven ((k : ℚ) + 1/2) = if k % 2 = 0 then k else k + 1 := by
  have hfloor : ⌊(k : ℚ) + 1/2⌋ = k := by
    rw [Int.floor_int_add]
    norm_num
  have hfrac : ((k : ℚ) + 1/2) - ⌊(k : ℚ) + 1/2⌋ = 1/2 := by
    rw [hfloor]; ring
  simp only [roundHalfEven, hfloor, hfrac]
  norm_num

/-- Claim C1 (anchoring): for every non-empty relative series and baseline
volume `vol ≥ 0`, if the last ratio is strictly positive then the last
derived absolute volume equals `round(vol)` — and rounding the integer
baseline is the identity, so the series is anchored to the baseline at the
most recent period. -/
theorem search_volume_anchored (df : List Row) (vol : ℤ) (h1 : df ≠ [])
    (h2 : 0 ≤ vol) (h3 : 0 < last_ratio df) :
    (search_volume vol df).getLast? = some (roundHalfEven ((vol : ℤ) : ℚ))
    ∧ roundHalfEven ((vol : ℤ) : ℚ) = vol := by
  obtain ⟨p, hp⟩ := Option.isSome_iff_exists.mp (List.getLast?_isSome.mpr h1)
  have hlr : last_ratio df = p.ratio := by
    simp [last_ratio, hp]
  have h3' : 0 < p.ratio := hlr ▸ h3
  have hne : p.ratio ≠ 0 := ne_of_gt h3'
  refine ⟨?_, roundHalfEven_intCast vol⟩
  have hmul : p.ratio * multiplier vol (last_ratio df) = (vol : ℚ) := by
    rw [hlr, multiplier, if_pos h3']
    field_simp
  simp only [search_volume, List.getLast?_map, hp, Option.map_some']
  rw [hmul]

/-- Witness for C1: the spec's own scenario (baseline 10000, ratios 50 then
100) anchors the last point at 10000. -/
theorem search_volume_anchored_witness :
    (search_volume 10000 [⟨"2024-01", 50⟩, ⟨"2024-02", 100⟩]).getLast?
      = some (roundHalfEven ((10000 : ℤ) : ℚ))
    ∧ roundHalfEven ((10000 : ℤ) : ℚ) = 10000 :=
  search_volume_anchored [⟨"2024-01", 50⟩, ⟨"2024-02", 100⟩] 10000
    (List.cons_ne_nil _ _) (by decide) (by with_unfolding_all decide)

/-- Claim C3 (zero multiplier): on a non-empty series whose last ratio is
zero, the multiplier is defined as 0 (not an error) and every derived
absolute volume is 0, whatever the baseline. -/
theorem search_volume_zero_last_ratio (df : List Row) (vol : ℤ)
    (h1 : df ≠ []) (h2 : last_ratio df = 0) :
    multiplier vol (last_ratio df) = 0
    ∧ ∀ x ∈ search_volume vol df, x = 0 := by
  have hm : multiplier vol (last_ratio df) = 0 := by
    rw [h2, multiplier]
    norm_num
  refine ⟨hm, ?_⟩
  intro x hx
  simp only [search_volume, List.mem_map] at hx
  obtain ⟨p, hpmem, rfl⟩ := hx
  rw [hm, mul_zero]
  simpa using roundHalfEven_intCast 0

/-- Witness for C3: the spec's scenario (single point of ratio 0, baseline
10000) collapses to the all-zero series. -/
theorem search_volume_zero_last_ratio_witness :
    multiplier 10000 (last_ratio [⟨"2024-01", 0⟩]) = 0
    ∧ iloc (search_volume 10000 [⟨"2024-01", 0⟩]) 1 = 0 :=
  ⟨(search_volume_zero_last_ratio [⟨"2024-01", 0⟩] 10000
      (List.cons_ne_nil _ _) (by with_unfolding_all decide)).1,
   (search_volume_zero_last_ratio [⟨"2024-01", 0⟩] 10000
      (List.cons_ne_nil _ _) (by with_unfolding_all decide)).2
     (iloc (search_volume 10000 [⟨"2024-01", 0⟩]) 1)
     (by with_unfolding_all decide)⟩

/-- Claim C5 (non-negativity): with non-negative ratios and a non-negative
baseline, every derived absolute volume is a non-negative integer. -/
theorem search_volume_nonneg (df : List Row) (vol : ℤ)
    (hr : ∀ p ∈ df, 0 ≤ p.ratio) (hv : 0 ≤ vol) :
    ∀ x ∈ search_volume vol df, 0 ≤ x := by
  have hm : 0 ≤ multiplier vol (last_ratio df) := by
    rw [multiplier]
    split_ifs with h
    · exact div_nonneg (by exact_mod_cast hv) h.le
    · exact le_refl 0
  intro x hx
  simp only [search_volume, List.mem_map] at hx
  obtain ⟨p, hpmem, rfl⟩ := hx
  exact roundHalfEven_nonneg (mul_nonneg (hr p hpmem) hm)

/-- Witness for C5: non-negativity of the last derived volume in the
concrete two-point scenario. -/
theorem search_volume_nonneg_witness :
    0 ≤ iloc (search_volume 10000 [⟨"2024-01", 50⟩, ⟨"2024-02", 100⟩]) 1 :=
  search_volume_nonneg [⟨"2024-01", 50⟩, ⟨"2024-02", 100⟩] 10000
    (by with_unfolding_all decide) (by decide)
    (iloc (search_volume 10000 [⟨"2024-01", 50⟩, ⟨"2024-02", 100⟩]) 1)
    (by with_unfolding_all decide)

/-- Claim C9 (implicit): the rounding used for derived absolute volumes is
round-half-to-even — a tie `k + 1/2` rounds to one of its two integer
neighbours and always to the even one (so `5/2 ↦ 2` and `3/2 ↦ 2`), and a
tie actually reached by the rescaler (`ratio 1`, last ratio `4`, baseline
`10`: product `5/2`) rounds down to the even 2. -/
theorem search_volume_rounds_half_to_even :
    (∀ k : ℤ, (roundHalfEven ((k : ℚ) + 1/2) = k
        ∨ roundHalfEven ((k : ℚ) + 1/2) = k + 1)
      ∧ Even (roundHalfEven ((k : ℚ) + 1/2)))
    ∧ roundHalfEven (5/2) = 2 ∧ roundHalfEven (3/2) = 2
    ∧ search_volume 10 [⟨"2024-01", 1⟩, ⟨"2024-02", 4⟩] = [2, 10] := by
  refine ⟨?_, by with_unfolding_all decide, by with_unfolding_all decide,
    by with_unfolding_all decide⟩
  intro k
  rw [roundHalfEven_tie]
  rcases Int.even_or_odd k with he | ho
  · have hk : k % 2 = 0 := Int.even_iff.mp he
    rw [if_pos hk]
    exact ⟨Or.inl rfl, he⟩
  · have hk : ¬ k % 2 = 0 := by
      rw [Int.odd_iff] at ho
      omega
    rw [if_neg hk]
    exact ⟨Or.inr rfl, by
      rcases ho with ⟨m, hm⟩
      exact ⟨m + 1, by omega⟩⟩

/-- Claim C4 (MoM): month-over-month growth is computed exactly when the
series has length ≥ 2 and the second-to-last volume is strictly positive,
and then equals `(curr − prev) / prev × 100`; in every other case (fewer
than 2 points, or `prev = 0`) the script leaves the displayed value at 0. -/
theorem mom_growth_spec (vols : List ℤ) :
    (2 ≤ vols.length ∧ 0 < iloc vols 2 →
      mom_growth vols = (((iloc vols 1 : ℚ) - iloc vols 2) / iloc vols 2) * 100)
    ∧ (¬ (2 ≤ vols.length ∧ 0 < iloc vols 2) → mom_growth vols = 0) := by
  constructor
  · rintro ⟨hlen, hprev⟩
    simp only [mom_growth]
    split_ifs
    rfl
  · intro h
    simp only [mom_growth]
    split_ifs with h1 h2
    · exact absurd ⟨h1, h2⟩ h
    · rfl
    · rfl

/-- Witness for C4: the spec's scenario `[5000, 10000]` yields
MoM `= (10000 − 5000) / 5000 × 100`. -/
theorem mom_growth_spec_witness :
    mom_growth [5000, 10000]
      = (((iloc [5000, 10000] 1 : ℚ) - iloc [5000, 10000] 2)
          / iloc [5000, 10000] 2) * 100 :=
  (mom_growth_spec [5000, 10000]).1 ⟨by decide, by decide⟩

/-- Claim C2 (YoY): the availability flag `has_yoy` is true iff the series
has length ≥ 13 and the 13th-from-last volume (`df.iloc[-13]`) is strictly
positive; when true, `yoy_growth = (curr − prevYr) / prevYr × 100`, and
when false the growth value is left at its 0 default (no value shown). -/
theorem yoy_metrics_spec (vols : List ℤ) :
    ((yoy_metrics vols).2 = true ↔ 13 ≤ vols.length ∧ 0 < iloc vols 13)
    ∧ ((yoy_metrics vols).2 = true →
        (yoy_metrics vols).1
          = (((iloc vols 1 : ℚ) - iloc vols 13) / iloc vols 13) * 100)
    ∧ ((yoy_metrics vols).2 = false → (yoy_metrics vols).1 = 0) := by
  simp only [yoy_metrics]
  split_ifs with hlen hprev
  · simp [hlen, hprev]
  · simp [hlen, hprev]
  · simp [hlen]

/-- Witness for C2: a 13-point series with first volume 5 and last 10 has
the flag set and YoY `= (10 − 5) / 5 × 100`. -/
theorem yoy_metrics_spec_witness :
    (yoy_metrics [5, 0, 0, 0, 0, 0, 0, 0, 0, 0, 0, 0, 10]).2 = true
    ∧ (yoy_metrics [5, 0, 0, 0, 0, 0, 0, 0, 0, 0, 0, 0, 10]).1
        = (((iloc [5, 0, 0, 0, 0, 0, 0, 0, 0, 0, 0, 0, 10] 1 : ℚ)
            - iloc [5, 0, 0, 0, 0, 0, 0, 0, 0, 0, 0, 0, 10] 13)
           / iloc [5, 0, 0, 0, 0, 0, 0, 0, 0, 0, 0, 0, 10] 13) * 100 := by
  have hflag := (yoy_metrics_spec [5, 0, 0, 0, 0, 0, 0, 0, 0, 0, 0, 0, 10]).1.mpr
    ⟨by decide, by decide⟩
  exact ⟨hflag, (yoy_metrics_spec [5, 0, 0, 0, 0, 0, 0, 0, 0, 0, 0, 0, 10]).2.1 hflag⟩

/-! ## The ad-API volume fetcher `get_total_volume` (lines 40–99) -/

/-- A monthly query-count value as delivered in the ad API's JSON: either a
number or a censoring marker string such as `"< 10"`. -/
inductive QcCnt where
  | int (n : ℤ)
  | str (s : String)
deriving Repr, DecidableEq

/-- Python `str(...)` applied to a count value (lines 86–87). -/
def pyStr : QcCnt → String
  | .int n => toString n
  | .str s => s

/-- Python `str.startswith("<")`. -/
def startsWithLt (s : String) : Bool :=
  match s.data with
  | c :: _ => c == '<'
  | [] => false

/-- Python `str.strip()`: leading and trailing whitespace removed. -/
def pyStrip (s : String) : String :=
  ⟨((s.data.dropWhile Char.isWhitespace).reverse.dropWhile Char.isWhitespace).reverse⟩

/-- Value of a non-empty run of decimal digits; `none` on the empty run or
any non-digit. -/
def digitsVal? (ds : List Char) : Option ℕ :=
  if ds.isEmpty then none
  else ds.foldl
    (fun acc c =>
      acc.bind fun n => if c.isDigit then some (n * 10 + (c.toNat - 48)) else none)
    (some 0)

/-- Python `int(...)` on a string: an optional sign before a digit run,
surrounding whitespace tolerated; `none` models the `ValueError` that the
script's `except` clause catches. -/
def pyInt? (s : String) : Option ℤ :=
  match (pyStrip s).data with
  | '-' :: ds => (digitsVal? ds).map (fun n => -(n : ℤ))
  | '+' :: ds => (digitsVal? ds).map (fun n => (n : ℤ))
  | ds => (digitsVal? ds).map (fun n => (n : ℤ))

/-- Lines 86–87: `5 if str(cnt).startswith("<") else int(cnt)`.  The `int`
conversion of a non-numeric string raises; `Except.error` models the
raised exception. -/
def volOf (c : QcCnt) : Except String ℤ :=
  if startsWithLt (pyStr c) then .ok 5
  else match c with
    | .int n => .ok n
    | .str s =>
      match pyInt? s with
      | some n => .ok n
      | none => .error ("invalid literal for int with base 10: " ++ s)

/-- One record of the ad API's `keywordList`. -/
structure AdItem where
  relKeyword : String
  monthlyPcQcCnt : QcCnt
  monthlyMobileQcCnt : QcCnt
  compIdx : String
deriving Repr, DecidableEq

/-- The parsed body of an ad API response: `response.json()` may raise
(malformed body), succeed without a `keywordList` key, or produce the
record list. -/
inductive AdBody where
  | malformed (err : String)
  | noList
  | list (items : List AdItem)
deriving Repr, DecidableEq

/-- Line 68–69: `data = response.json()` (raises on a malformed body,
hence `Except`), then `data.get('keywordList', [])`. -/
def keywordList : AdBody → Except String (List AdItem)
  | .malformed e => .error e
  | .noList => .ok []
  | .list items => .ok items

/-- An HTTP response from the ad endpoint. -/
structure AdResponse where
  status_code : ℤ
  text : String
  body : AdBody
deriving Repr, DecidableEq

/-- Python `keyword.replace(" ", "")` (lines 62 and 73): every space
character removed. -/
def removeSpaces (s : String) : String :=
  ⟨s.data.filter (fun c => c != ' ')⟩

/-- The query parameter `hintKeywords` sent with the GET request
(line 63): the space-stripped keyword. -/
def hintKeywords (keyword : String) : String :=
  removeSpaces keyword

/-- Lines 71–79: scan `kwd_list` for the first record whose space-stripped
`relKeyword` equals `clean_keyword`; if none matches and the list is
non-empty, fall back to its first record. -/
def target_item (clean_keyword : String) (kwd_list : List AdItem) : Option AdItem :=
  match kwd_list.find? (fun it => removeSpaces it.relKeyword == clean_keyword) with
  | some it => some it
  | none => kwd_list.head?

/-- The dictionary `get_total_volume` returns: either
`{"success": True, "data": {keyword, total_vol, comp_idx}}` or
`{"success": False, "msg": ...}`. -/
inductive GtvResult where
  | ok (keyword : String) (total_vol : ℤ) (comp_idx : String)
  | err (msg : String)
deriving Repr, DecidableEq

/-- The `try` body of `get_total_volume` (lines 61–97) over the outcome of
`requests.get` (`transport`, whose `Except.error` is a raised transport
exception).  `Except.ok` is an explicit `return` of the Python function,
`Except.error` an exception raised mid-body. -/
def get_total_volume_body (keyword : String)
    (transport : Except String AdResponse) : Except String GtvResult :=
  match transport with
  | .error e => .error e
  | .ok response =>
    if response.status_code ≠ 200 then
      .ok (.err ("Ad API Error " ++ toString response.status_code ++ ": "
        ++ response.text))
    else
      match keywordList response.body with
      | .error e => .error e
      | .ok kwd_list =>
        match target_item (removeSpaces keyword) kwd_list with
        | none => .ok (.err "검색 결과가 없습니다. (검색량 부족 또는 오타)")
        | some item =>
          match volOf item.monthlyPcQcCnt, volOf item.monthlyMobileQcCnt with
          | .error e, _ => .error e
          | .ok _, .error e => .error e
          | .ok pc_vol, .ok mo_vol =>
            .ok (.ok item.relKeyword (pc_vol + mo_vol) item.compIdx)

/-- `get_total_volume` (lines 40–99): the `except Exception as e` clause
turns every exception escaping the body into
`{"success": False, "msg": str(e)}`. -/
def get_total_volume (keyword : String)
    (transport : Except String AdResponse) : GtvResult :=
  match get_total_volume_body keyword transport with
  | .ok r => r
  | .error e => .err e

example :
    get_total_volume "캠핑의자"
      (.ok ⟨200, "", .list [⟨"캠핑의자", .str "< 10", .str "< 10", "높음"⟩]⟩)
      = .ok "캠핑의자" 10 "높음" := by decide
example :
    get_total_volume "tent chair"
      (.ok ⟨200, "", .list [⟨"other", .int 7, .int 8, "low"⟩,
                            ⟨"tent  chair", .int 1, .int 2, "mid"⟩]⟩)
      = .ok "tent  chair" 3 "mid" := by decide
example : get_total_volume "k" (.error "timeout") = .err "timeout" := by decide
example : get_total_volume "k" (.ok ⟨404, "nf", .noList⟩)
    = .err "Ad API Error 404: nf" := by decide
example : get_total_volume "k" (.ok ⟨200, "", .noList⟩)
    = .err "검색 결과가 없습니다. (검색량 부족 또는 오타)" := by decide
example : get_total_volume "k" (.ok ⟨200, "", .list [⟨"k", .str "abc", .int 2, "c"⟩]⟩)
    = .err "invalid literal for int with base 10: abc" := by decide

/-- Claim C6 (censored counts): any count whose string form starts with
`<` is mapped to the fixed value 5, and on a 200-status response the
returned `total_vol` is the sum of the selected record's two mapped
counts — so a record censored on both counts yields `total_vol = 10`. -/
theorem censored_counts_total (k : String) (kwd_list : List AdItem)
    (it : AdItem) (pc mo : ℤ)
    (htarget : target_item (removeSpaces k) kwd_list = some it)
    (hpc : volOf it.monthlyPcQcCnt = .ok pc)
    (hmo : volOf it.monthlyMobileQcCnt = .ok mo) :
    (∀ c : QcCnt, startsWithLt (pyStr c) = true → volOf c = .ok 5)
    ∧ get_total_volume k (.ok ⟨200, "", .list kwd_list⟩)
        = .ok it.relKeyword (pc + mo) it.compIdx := by
  constructor
  · intro c hc
    rw [volOf.eq_def, if_pos hc]
  · simp [get_total_volume, get_total_volume_body, keywordList, htarget,
      hpc, hmo]

/-- Witness for C6: both counts censored as `"< 10"` map to 5 each and the
record's `total_vol` is 10. -/
theorem censored_counts_total_witness :
    volOf (QcCnt.str "< 10") = .ok 5
    ∧ get_total_volume "캠핑의자"
        (.ok ⟨200, "", .list [⟨"캠핑의자", .str "< 10", .str "< 10", "높음"⟩]⟩)
        = .ok "캠핑의자" 10 "높음" :=
  ⟨(censored_counts_total "캠핑의자"
      [⟨"캠핑의자", .str "< 10", .str "< 10", "높음"⟩]
      ⟨"캠핑의자", .str "< 10", .str "< 10", "높음"⟩ 5 5
      (by decide) (by rfl) (by rfl)).1 (QcCnt.str "< 10") (by decide),
   (censored_counts_total "캠핑의자"
      [⟨"캠핑의자", .str "< 10", .str "< 10", "높음"⟩]
      ⟨"캠핑의자", .str "< 10", .str "< 10", "높음"⟩ 5 5
      (by decide) (by rfl) (by rfl)).2⟩

/-- Claim C7 (matching policy): on a non-empty candidate list the selected
record is the first whose space-stripped `relKeyword` equals the
space-stripped input keyword, with the list's first record as fallback
when no record matches exactly; and the request parameter `hintKeywords`
is the same space-stripped keyword. -/
theorem target_item_spec (keyword : String) (kwd_list : List AdItem)
    (hne : kwd_list ≠ []) :
    (∃ it, target_item (removeSpaces keyword) kwd_list = some it
      ∧ ((it ∈ kwd_list ∧ removeSpaces it.relKeyword = removeSpaces keyword)
        ∨ ((∀ j ∈ kwd_list, removeSpaces j.relKeyword ≠ removeSpaces keyword)
            ∧ kwd_list.head? = some it)))
    ∧ hintKeywords keyword = removeSpaces keyword := by
  refine ⟨?_, rfl⟩
  rw [target_item]
  cases hfind : kwd_list.find?
      (fun it => removeSpaces it.relKeyword == removeSpaces keyword) with
  | some it =>
    have hp : (removeSpaces it.relKeyword == removeSpaces keyword) = true := by
      simpa using List.find?_some hfind
    exact ⟨it, rfl, Or.inl ⟨List.mem_of_find?_eq_some hfind, eq_of_beq hp⟩⟩
  | none =>
    match kwd_list, hne with
    | a :: l, _ =>
      refine ⟨a, rfl, Or.inr ⟨?_, rfl⟩⟩
      intro j hj heq
      have hnp := List.find?_eq_none.mp hfind j hj
      exact hnp (by rw [heq]; exact beq_self_eq_true _)

/-- Witness for C7: in a two-record list only the second record matches
`"tent chair"` after space stripping and it is selected; the request
parameter is the space-stripped keyword. -/
theorem target_item_spec_witness :
    target_item (removeSpaces "tent chair")
        [⟨"other", .int 7, .int 8, "low"⟩, ⟨"tent  chair", .int 1, .int 2, "mid"⟩]
      = some ⟨"tent  chair", .int 1, .int 2, "mid"⟩
    ∧ hintKeywords "tent chair" = removeSpaces "tent chair" :=
  ⟨by decide,
   (target_item_spec "tent chair"
      [⟨"other", .int 7, .int 8, "low"⟩, ⟨"tent  chair", .int 1, .int 2, "mid"⟩]
      (List.cons_ne_nil _ _)).2⟩

/-- Claim C10 (interface totality): `get_total_volume` always yields a
result dictionary — success with a data record or failure with a message;
a raised transport exception surfaces as the failure message, and a data
record is produced exactly by the body's success path. -/
theorem get_total_volume_total (keyword : String)
    (transport : Except String AdResponse) :
    ((∃ m, get_total_volume keyword transport = .err m)
      ∨ (∃ kw v c, get_total_volume keyword transport = .ok kw v c))
    ∧ (∀ e, transport = .error e → get_total_volume keyword transport = .err e)
    ∧ (∀ kw v c, get_total_volume keyword transport = .ok kw v c →
        get_total_volume_body keyword transport = .ok (.ok kw v c)) := by
  refine ⟨?_, ?_, ?_⟩
  · cases h : get_total_volume keyword transport with
    | ok kw v c => exact Or.inr ⟨kw, v, c, rfl⟩
    | err m => exact Or.inl ⟨m, rfl⟩
  · rintro e rfl
    rfl
  · intro kw v c h
    rw [get_total_volume] at h
    cases hb : get_total_volume_body keyword transport with
    | ok r =>
      rw [hb] at h
      exact congrArg Except.ok (h : r = GtvResult.ok kw v c)
    | error e =>
      rw [hb] at h
      exact absurd (h : GtvResult.err e = GtvResult.ok kw v c) (by simp)

/-- Witness for C10: a raised transport exception becomes the failure
message of the returned dictionary. -/
theorem get_total_volume_total_witness :
    get_total_volume "k" (Except.error "timeout") = .err "timeout" :=
  (get_total_volume_total "k" (Except.error "timeout")).2.1 "timeout" rfl

/-! ## The request signer (lines 45–51)

The script builds `message = "{}.{}.{}".format(timestamp, method, uri)`,
keys HMAC-SHA256 with the stripped secret and base64-encodes the digest.
`hmac`/`hashlib`/`base64` are Python standard-library collaborators; they
are embedded here concretely (RFC 2104 / FIPS 180-4 / RFC 4648) over byte
lists. -/

/-- Truncation to a 32-bit word. -/
def w32 (n : ℕ) : ℕ := n % 4294967296

/-- Right rotation of a 32-bit word by `k` (for `n < 2^32`, `k ≤ 32`). -/
def rotr (k n : ℕ) : ℕ := w32 (n / 2 ^ k + n % 2 ^ k * 2 ^ (32 - k))

/-- Bitwise complement of a 32-bit word. -/
def not32 (n : ℕ) : ℕ := 4294967295 - n

/-- FIPS 180-4 `Ch(x,y,z)`. -/
def ch (x y z : ℕ) : ℕ := (x &&& y) ^^^ (not32 x &&& z)

/-- FIPS 180-4 `Maj(x,y,z)`. -/
def maj (x y z : ℕ) : ℕ := (x &&& y) ^^^ (x &&& z) ^^^ (y &&& z)

/-- FIPS 180-4 `Σ₀`. -/
def bigSigma0 (x : ℕ) : ℕ := rotr 2 x ^^^ rotr 13 x ^^^ rotr 22 x

/-- FIPS 180-4 `Σ₁`. -/
def bigSigma1 (x : ℕ) : ℕ := rotr 6 x ^^^ rotr 11 x ^^^ rotr 25 x

/-- FIPS 180-4 `σ₀`. -/
def smallSigma0 (x : ℕ) : ℕ := rotr 7 x ^^^ rotr 18 x ^^^ x / 2 ^ 3

/-- FIPS 180-4 `σ₁`. -/
def smallSigma1 (x : ℕ) : ℕ := rotr 17 x ^^^ rotr 19 x ^^^ x / 2 ^ 10

/-- The 64 SHA-256 round constants (FIPS 180-4 §4.2.2, in decimal). -/
def K256 : List ℕ :=
  [1116352408, 1899447441, 3049323471, 3921009573, 961987163,
   1508970993, 2453635748, 2870763221, 3624381080, 310598401,
   607225278, 1426881987, 1925078388, 2162078206, 2614888103,
   3248222580, 3835390401, 4022224774, 264347078, 604807628,
   770255983, 1249150122, 1555081692, 1996064986, 2554220882,
   2821834349, 2952996808, 3210313671, 3336571891, 3584528711,
   113926993, 338241895, 666307205, 773529912, 1294757372,
   1396182291, 1695183700, 1986661051, 2177026350, 2456956037,
   2730485921, 2820302411, 3259730800, 3345764771, 3516065817,
   3600352804, 4094571909, 275423344, 430227734, 506948616,
   659060556, 883997877, 958139571, 1322822218, 1537002063,
   1747873779, 1955562222, 2024104815, 2227730452, 2361852424,
   2428436474, 2756734187, 3204031479, 3329325298]

/-- The initial SHA-256 hash state (FIPS 180-4 §5.3.3, in decimal). -/
def H256 : List ℕ :=
  [1779033703, 3144134277, 1013904242, 2773480762,
   1359893119, 2600822924, 528734635, 1541459225]

/-- `k`-byte big-endian representation of `n`. -/
def beBytes (k n : ℕ) : List ℕ :=
  (List.range k).map (fun i => n / 2 ^ (8 * (k - 1 - i)) % 256)

/-- SHA-256 padding: append `0x80`, zero bytes up to 56 mod 64, then the
bit length as an 8-byte big-endian number. -/
def padMessage (msg : List ℕ) : List ℕ :=
  let L := msg.length
  let zeros := (64 + 56 - (L + 1) % 64) % 64
  msg ++ [0x80] ++ List.replicate zeros 0 ++ beBytes 8 (8 * L)

/-- Big-endian packing of bytes into 32-bit words. -/
def toWords : List ℕ → List ℕ
  | b0 :: b1 :: b2 :: b3 :: rest =>
    (((b0 * 256 + b1) * 256 + b2) * 256 + b3) :: toWords rest
  | _ => []

/-- Split a word list into 16-word blocks. -/
def toBlocks : List ℕ → List (List ℕ)
  | [] => []
  | w :: rest => ((w :: rest).take 16) :: toBlocks (rest.drop 15)
termination_by l => l.length
decreasing_by simp [List.length_drop]; omega

/-- One extension step of the SHA-256 message schedule. -/
def scheduleStep (ws : List ℕ) : List ℕ :=
  let n := ws.length
  ws ++ [w32 (smallSigma1 (ws.getD (n - 2) 0) + ws.getD (n - 7) 0
    + smallSigma0 (ws.getD (n - 15) 0) + ws.getD (n - 16) 0)]

/-- The full 64-word message schedule of one block. -/
def msgSchedule (block : List ℕ) : List ℕ :=
  scheduleStep^[48] block

/-- One SHA-256 compression round: `kw` is the pair of round constant and
schedule word, the state is the eight working variables `a`–`h`. -/
def compressStep (st : List ℕ) (kw : ℕ × ℕ) : List ℕ :=
  match st with
  | [a, b, c, d, e, f, g, h] =>
    let t1 := w32 (h + bigSigma1 e + ch e f g + kw.1 + kw.2)
    let t2 := w32 (bigSigma0 a + maj a b c)
    [w32 (t1 + t2), a, b, c, w32 (d + t1), e, f, g]
  | other => other

/-- Compression of one 16-word block into the running hash state. -/
def compressBlock (hs block : List ℕ) : List ℕ :=
  let st := ((K256.zip (msgSchedule block)).foldl compressStep hs)
  List.zipWith (fun x y => w32 (x + y)) hs st

/-- SHA-256 of a byte list, as the 32 digest bytes. -/
def sha256 (msg : List ℕ) : List ℕ :=
  (((toBlocks (toWords (padMessage msg))).foldl compressBlock H256).map
    (beBytes 4)).flatten

/-- RFC 2104 HMAC-SHA256 over byte lists (what `hmac.new(key, msg,
hashlib.sha256).digest()` computes). -/
def hmacSha256 (key msg : List ℕ) : List ℕ :=
  let k0 := if 64 < key.length then sha256 key else key
  let k1 := k0 ++ List.replicate (64 - k0.length) 0
  sha256 ((k1.map (fun b => b ^^^ 0x5c)) ++
    sha256 ((k1.map (fun b => b ^^^ 0x36)) ++ msg))

/-- UTF-8 encoding of one character. -/
def utf8Char (c : Char) : List ℕ :=
  let n := c.toNat
  if n < 0x80 then [n]
  else if n < 0x800 then
    [0xc0 + n / 64, 0x80 + n % 64]
  else if n < 0x10000 then
    [0xe0 + n / 4096, 0x80 + n / 64 % 64, 0x80 + n % 64]
  else
    [0xf0 + n / 262144, 0x80 + n / 4096 % 64, 0x80 + n / 64 % 64, 0x80 + n % 64]

/-- Python `bytes(s, "utf-8")`. -/
def utf8 (s : String) : List ℕ :=
  (s.data.map utf8Char).flatten

/-- The RFC 4648 base64 alphabet. -/
def base64Table : List Char :=
  "ABCDEFGHIJKLMNOPQRSTUVWXYZabcdefghijklmnopqrstuvwxyz0123456789+/".data

/-- Character `i` of the base64 alphabet. -/
def b64Char (i : ℕ) : Char :=
  base64Table.getD i 'A'

/-- Base64 encoding of a byte list, three bytes to four characters with
`=` padding. -/
def b64Chars : List ℕ → List Char
  | b0 :: b1 :: b2 :: rest =>
    b64Char (b0 / 4) :: b64Char (b0 % 4 * 16 + b1 / 16)
      :: b64Char (b1 % 16 * 4 + b2 / 64) :: b64Char (b2 % 64)
      :: b64Chars rest
  | [b0, b1] =>
    [b64Char (b0 / 4), b64Char (b0 % 4 * 16 + b1 / 16),
     b64Char (b1 % 16 * 4), '=']
  | [b0] =>
    [b64Char (b0 / 4), b64Char (b0 % 4 * 16), '=', '=']
  | [] => []

/-- Python `base64.b64encode`, as a string. -/
def b64encode (bs : List ℕ) : String :=
  ⟨b64Chars bs⟩

/-- Lines 45–51 of the script: strip the secret, dot-join
timestamp/method/uri, HMAC-SHA256, base64. -/
def get_signature (ad_secret_key timestamp method uri : String) : String :=
  let secret_key := pyStrip ad_secret_key
  let message := timestamp ++ "." ++ method ++ "." ++ uri
  b64encode (hmacSha256 (utf8 secret_key) (utf8 message))

/-- UTF-8 encoding distributes over string concatenation. -/
theorem utf8_append (a b : String) : utf8 (a ++ b) = utf8 a ++ utf8 b := by
  simp [utf8, String.data_append]

/-- Claim C8 (signer): the signature is a pure function of secret, method,
path and timestamp, equal to the base64 encoding of the HMAC-SHA256
digest, keyed by the (stripped) secret's UTF-8 bytes, of the UTF-8 bytes
of timestamp, method and path joined by literal dots (byte 46) in exactly
that order. -/
theorem get_signature_spec (secret timestamp method uri : String) :
    get_signature secret timestamp method uri
      = b64encode (hmacSha256 (utf8 (pyStrip secret))
          (utf8 timestamp ++ [46] ++ utf8 method ++ [46] ++ utf8 uri)) := by
  have hdot : utf8 "." = [46] := by decide
  have hmsg : utf8 (timestamp ++ "." ++ method ++ "." ++ uri)
      = utf8 timestamp ++ [46] ++ utf8 method ++ [46] ++ utf8 uri := by
    simp [utf8_append, hdot]
  simp only [get_signature, hmsg]

end NaverApp

